import Mathlib

/-!
# CodeCleaner: the webhook-to-comment pipeline of `src/app.js`

A shallow embedding of the first-party logic of `app.js`:

* the `pull_request.opened` handler (lines 42-95),
* the dispatcher-level error handler (lines 98-105),
* the single registration of line 42, under the key `pull_request.opened`.

The three SDKs (webhook dispatcher, REST client, completion client) are
external.  Their answers are inputs of the model (`World`), and every call the
handler makes to them, as well as every console line, is recorded in order in a
trace of `Event`s.

JavaScript values are modelled by `JsVal`.  An object is a plain object (`obj`)
or an `Error` instance (`errorObj`); its property list holds the data
properties visible through lookup, and there are no function values.  Numbers
are the integers.  A value thrown or rejected by a client is an `Error`
instance, given by its property list.

`toStr` is the built-in string conversion: `Object.prototype.toString` on a
plain object, `Error.prototype.toString` on an `Error` instance,
`Array.prototype.join` on an array.  `convert` adds the failure of the
conversion: an object with an own data property named `toString` has no callable
conversion method and raises a `TypeError`.  The two blocks that log a failure
(the `catch` block of the comment call and the dispatcher-level error handler)
are modelled with `convert`.  Before the comment call the handler converts the
head and the number of the pull request, the fields of the file records and the
message of the listing error; these are taken to convert and are modelled with
`toStr`.
-/

namespace CodeCleaner

/-- JavaScript values. -/
inductive JsVal where
  | undefined
  | null
  | bool (b : Bool)
  | num (n : Int)
  | str (s : String)
  | obj (fields : List (String × JsVal))
  | errorObj (fields : List (String × JsVal))
  | arr (elems : List JsVal)

/-- The properties of an object, as seen by property lookup. -/
abbrev Fields := List (String × JsVal)

namespace JsVal

/-- The method `Array.prototype.join`, on already converted elements. -/
def joinWith (sep : String) : List String → String
  | [] => ""
  | [x] => x
  | x :: y :: rest => x ++ sep ++ joinWith sep (y :: rest)

/-- The last steps of `Error.prototype.toString`, from the converted name and
message. -/
def errorText (name message : String) : String :=
  if name = "" then message else if message = "" then name else name ++ ": " ++ message

mutual
/-- String conversion, as performed by a template literal `${v}`. -/
def toStr : JsVal → String
  | undefined => "undefined"
  | null => "null"
  | bool b => if b then "true" else "false"
  | num n => toString n
  | str s => s
  | obj _ => "[object Object]"
  | errorObj fs => errorText (fieldStr "name" "Error" fs) (fieldStr "message" "" fs)
  | arr xs => joinWith "," (elemStrs xs)
/-- The element conversions of `Array.prototype.join`: `undefined` and `null`
become the empty string. -/
def elemStrs : List JsVal → List String
  | [] => []
  | undefined :: rest => "" :: elemStrs rest
  | null :: rest => "" :: elemStrs rest
  | x :: rest => toStr x :: elemStrs rest
/-- The conversion of property `k` in `Error.prototype.toString`: the default
when the property is `undefined`, its string conversion otherwise. -/
def fieldStr (k dflt : String) : List (String × JsVal) → String
  | [] => dflt
  | (k', undefined) :: rest => if k' = k then dflt else fieldStr k dflt rest
  | (k', v) :: rest => if k' = k then toStr v else fieldStr k dflt rest
end

/-- Whether the property list has a property named `k`. -/
def hasKey (k : String) (fs : List (String × JsVal)) : Bool :=
  fs.any (fun p => p.1 == k)

mutual
/-- Whether the string conversion of a value succeeds.  An object with an own
data property `toString` has no callable `toString`, and the inherited `valueOf`
returns the object itself, so its conversion raises a `TypeError`. -/
def convertible : JsVal → Bool
  | obj fs => !hasKey "toString" fs
  | errorObj fs =>
    !hasKey "toString" fs && fieldConvertible "name" fs && fieldConvertible "message" fs
  | arr xs => elemsConvertible xs
  | _ => true
/-- Whether every element of an array converts. -/
def elemsConvertible : List JsVal → Bool
  | [] => true
  | x :: rest => convertible x && elemsConvertible rest
/-- Whether property `k`, as read by `Error.prototype.toString`, converts. -/
def fieldConvertible (k : String) : List (String × JsVal) → Bool
  | [] => true
  | (k', v) :: rest => if k' = k then convertible v else fieldConvertible k rest
end

/-- Truthiness, as tested by `if (v)`. -/
def truthy : JsVal → Bool
  | undefined => false
  | null => false
  | bool b => b
  | num n => n != 0
  | str s => s != ""
  | obj _ => true
  | errorObj _ => true
  | arr _ => true

/-- The values on which a property read throws. -/
def isNullish : JsVal → Bool
  | undefined => true
  | null => true
  | _ => false

/-- Strict equality `v === s` against a string literal. -/
def strictEqStr : JsVal → String → Bool
  | str t, s => t == s
  | _, _ => false

end JsVal

open JsVal

/-- Property lookup `o.k` on an object: `undefined` when the property is absent. -/
def lookup (k : String) : Fields → JsVal
  | [] => .undefined
  | (k', v) :: rest => if k' = k then v else lookup k rest

/-- The `TypeError` raised by reading property `k` of `undefined` or `null`. -/
def typeError (base : JsVal) (k : String) : JsVal :=
  .errorObj [("name", .str "TypeError"),
    ("message", .str ("Cannot read properties of " ++ toStr base ++ " (reading \x27" ++ k ++ "\x27)"))]

/-- The `TypeError` raised by the string conversion of an object that does not
convert. -/
def conversionError : JsVal :=
  .errorObj [("name", .str "TypeError"),
    ("message", .str "Cannot convert object to primitive value")]

/-- String conversion `${v}` with its failure. -/
def convert (v : JsVal) : Except JsVal String :=
  if convertible v then .ok (toStr v) else .error conversionError

/-- The value of `v.k` for a `v` that is not nullish.  None of the property
names read by `app.js` exists on a primitive or on an array. -/
def propOf (v : JsVal) (k : String) : JsVal :=
  match v with
  | .obj fs => lookup k fs
  | .errorObj fs => lookup k fs
  | _ => .undefined

/-- Property read `v.k`: throws a `TypeError` on `undefined` and `null`. -/
def getProp (v : JsVal) (k : String) : Except JsVal JsVal :=
  if isNullish v then .error (typeError v k) else .ok (propOf v k)

/-- Indexed read `v[i]`: throws on `undefined` and `null`.  On a string the
result is the character at that position. -/
def getIdx (v : JsVal) (i : Nat) : Except JsVal JsVal :=
  match v with
  | .undefined => .error (typeError v (toString i))
  | .null => .error (typeError v (toString i))
  | .arr xs => .ok (xs.getD i .undefined)
  | .obj fs => .ok (lookup (toString i) fs)
  | .errorObj fs => .ok (lookup (toString i) fs)
  | .str s => .ok (match s.data.get? i with
      | some c => .str (String.singleton c)
      | none => .undefined)
  | _ => .ok .undefined

/-! ## Data model -/

structure Owner where
  login : String

structure Repository where
  owner : Owner
  name : String

structure PullRequest where
  number : Int
  head : JsVal

/-- The payload of a webhook delivery, with the fields `app.js` reads. -/
structure Payload where
  action : Option String
  repository : Repository
  pull_request : PullRequest

/-- One entry of the `messages` array of a chat completion request. -/
structure ChatMessage where
  role : String
  content : String

/-- What the handler does to the outside, in program order. -/
inductive Event where
  | log (v : JsVal)
  | error (v : JsVal)
  | listFiles (owner repo : String) (pull_number : Int)
  | completion (model : String) (store : Bool) (messages : List ChatMessage)
  | createComment (owner repo : String) (issue_number : Int) (body : String)

namespace Event

def isListFiles : Event → Bool
  | listFiles _ _ _ => true
  | _ => false

def isCompletion : Event → Bool
  | completion _ _ _ => true
  | _ => false

def isCreateComment : Event → Bool
  | createComment _ _ _ _ => true
  | _ => false

/-- The network calls: file listing, completion request, comment creation. -/
def isOutbound (e : Event) : Bool :=
  e.isListFiles || e.isCompletion || e.isCreateComment

/-- A line written with `console.error`. -/
def isError : Event → Bool
  | error _ => true
  | _ => false

/-- The `body` of a comment-creation call. -/
def commentBody : Event → Option String
  | createComment _ _ _ body => some body
  | _ => none

/-- The `content` of the messages of a completion request. -/
def promptTexts : Event → List String
  | completion _ _ messages => messages.map ChatMessage.content
  | _ => []

end Event

/-- The answers of the external clients to the calls of one handler run: each
call either resolves or rejects with an `Error` instance, given by its
properties. -/
structure World where
  listFiles : Except Fields (List Fields)
  completion : Except Fields JsVal
  createComment : Except Fields Unit

/-- One run of a handler: the trace, how the promise of the handler settles, and
how the promise derived by `completion.then(...)` settles (`none` when no
completion was requested).  Nothing awaits the derived promise. -/
structure Run where
  trace : List Event
  outcome : Except JsVal Unit
  detached : Option (Except JsVal Unit)

/-! ## The `pull_request.opened` handler -/

/-- Line 49: `const result = "Hi, this is a comment from the bot."`. -/
def result : String := "Hi, this is a comment from the bot."

/-- The fixed text of the template literal of line 72, up to `${changes_list}`. -/
def instruction : String :=
  "You are a senior software developer. Analyze these PR changes that have been made into the repository. Provide your response in 3 sections. First, provide a summary about what all of the changes will achieve for the project. This should be a concise statement that should be direct and explain all the integrations/logic that is executed. In the next section, you need to discuss changes of concern. Start  by mentioning the file name and below that add the line of concern. After the line of code, explain on the next line on why this logic might be flawed. Be quantitative and specific. Here are all the changes that have been made for the PR: "

/-- The text `${file.filename} (${file.status})`, lines 61 and 64. -/
def fileInfo (file : Fields) : String :=
  toStr (lookup "filename" file) ++ " (" ++ toStr (lookup "status" file) ++ ")"

/-- Lines 61-63: the three console lines of one loop iteration. -/
def fileLogs (file : Fields) : List Event :=
  [ .log (.str ("- " ++ fileInfo file)),
    .log (.str ("  Changes: " ++ toStr (lookup "changes" file))),
    .log (.str ("  Patch:\n" ++ toStr (lookup "patch" file) ++ "\n")) ]

/-- Line 64: the record built for one file. -/
def dictionary_file (file : Fields) : JsVal :=
  .obj [ ("File Info", .str (fileInfo file)),
         ("Changes", .str (toStr (lookup "changes" file))),
         ("Patch", .str (toStr (lookup "patch" file))) ]

/-- Lines 59-66: the loop over `files`, returning the console lines and the
elements pushed on `changes_list`, both in order. -/
def fileLoop : List Fields → List Event × List JsVal
  | [] => ([], [])
  | file :: rest =>
    let r := fileLoop rest
    (fileLogs file ++ r.1, dictionary_file file :: r.2)

/-- The array `changes_list` after the loop. -/
def changes_list (files : List Fields) : JsVal :=
  .arr (fileLoop files).2

/-- Line 72: the template literal, `${changes_list}` followed by one blank. -/
def promptText (files : List Fields) : String :=
  instruction ++ toStr (changes_list files) ++ " "

/-- Lines 67-74: the completion request. -/
def completionRequest (files : List Fields) : Event :=
  .completion "gpt-4o-mini" true [⟨"user", promptText files⟩]

/-- Lines 75-77: the continuation `(result) => { result = result.choices[0].message }`.
Its parameter `result` shadows the constant of line 49; the assignment changes
the parameter only, and the arrow function returns `undefined`. -/
def thenCallback (response : JsVal) : Except JsVal Unit := do
  let choices ← getProp response "choices"
  let first ← getIdx choices 0
  let _message ← getProp first "message"
  pure ()

/-- How the promise `completion.then(...)` settles. -/
def thenSettles (completion : Except Fields JsVal) : Except JsVal Unit :=
  match completion with
  | .ok response => thenCallback response
  | .error e => .error (.errorObj e)

/-- Line 90: the template literal
`Error! Status: ${error.response.status}. Message: ${error.response.data.message}`,
evaluated from left to right: each substitution is read, then converted. -/
def failureLine (response : JsVal) : Except JsVal String := do
  let status ← getProp response "status"
  let statusText ← convert status
  let data ← getProp response "data"
  let message ← getProp data "message"
  let messageText ← convert message
  pure ("Error! Status: " ++ statusText ++ ". Message: " ++ messageText)

/-- Lines 88-94: the `catch` block around `createComment`.  It returns the line
it writes with `console.error`, or the exception it raises itself. -/
def commentCatch (error : Fields) : Except JsVal Event :=
  let response := lookup "response" error
  if truthy response then
    match failureLine response with
    | .ok text => .ok (.error (.str text))
    | .error thrown => .error thrown
  else
    .ok (.error (.errorObj error))

/-- Modelled from the spec: the error values with which the REST client, which
is not part of the repository, rejects a call.  The spec tells "an unstructured
error" from "a structured API error response", which carries a status code and
a message.  Here an unstructured error has no `response` property; a structured
one has as `response` an object with a `status` and a body `data`, the text of
the response or its parsed JSON, and the status and the message of the body
convert to strings. -/
def isRequestError (error : Fields) : Bool :=
  match lookup "response" error with
  | .undefined => true
  | .obj r =>
    !isNullish (lookup "data" r) && convertible (lookup "status" r)
      && convertible (propOf (lookup "data" r) "message")
  | _ => false

/-- Lines 43-80: the handler up to the end of the first `try`/`catch`. -/
def fetchPhase (payload : Payload) (w : World) : List Event × Option (Except JsVal Unit) :=
  let owner := payload.repository.owner.login
  let repo := payload.repository.name
  let pull_number := payload.pull_request.number
  let start : List Event :=
    [ .log (.str ("Received a pull request event for #" ++ toStr payload.pull_request.head)),
      .listFiles owner repo pull_number ]
  match w.listFiles with
  | .ok files =>
    (start
      ++ [.log (.str ("Files changed in PR #" ++ toStr (.num pull_number) ++ ":"))]
      ++ (fileLoop files).1
      ++ [completionRequest files],
     some (thenSettles w.completion))
  | .error error =>
    (start ++ [.error (.str ("Error fetching file changes: " ++ toStr (lookup "message" error)))],
     none)

/-- Lines 42-95: the handler registered for `pull_request.opened`. -/
def handler (payload : Payload) (w : World) : Run :=
  let fetched := fetchPhase payload w
  let called := fetched.1 ++
    [.createComment payload.repository.owner.login payload.repository.name
      payload.pull_request.number result]
  match w.createComment with
  | .ok _ => ⟨called, .ok (), fetched.2⟩
  | .error error =>
    match commentCatch error with
    | .ok line => ⟨called ++ [line], .ok (), fetched.2⟩
    | .error thrown => ⟨called, .error thrown, fetched.2⟩

/-! ## The dispatcher-level error handler and the registration -/

/-- Lines 98-105: `app.webhooks.onError`, called with an `Error` instance given
by its properties.  The template literal of line 101 converts `error.event`. -/
def onError (error : Fields) : Run :=
  if strictEqStr (lookup "name" error) "AggregateError" then
    match convert (lookup "event" error) with
    | .ok text => ⟨[.log (.str ("Error processing request: " ++ text))], .ok (), none⟩
    | .error thrown => ⟨[], .error thrown, none⟩
  else
    ⟨[.log (.errorObj error)], .ok (), none⟩

/-- A webhook delivery: the event name and the payload. -/
structure Delivery where
  name : String
  payload : Payload

/-- The event/action key of a delivery: `name.action`, or `name` alone when the
payload has no action. -/
def eventKey (d : Delivery) : String :=
  match d.payload.action with
  | some a => d.name ++ "." ++ a
  | none => d.name

/-- Lines 41-42: every `app.webhooks.on(key, handler)` of the program. -/
def registrations : List (String × (Payload → World → Run)) :=
  [("pull_request.opened", handler)]

/-- Modelled from the spec: the dispatcher of the webhook SDK, which is not part
of the repository.  It "routes by exact event/action key": the handlers run are
those registered under the key of the delivery. -/
def dispatch (d : Delivery) (w : World) : List Run :=
  (registrations.filter (fun r => r.1 == eventKey d)).map (fun r => r.2 d.payload w)

/-! ## Scenario values -/

/-- The payload of the scenario of the spec. -/
def acmePayload : Payload :=
  ⟨some "opened", ⟨⟨"acme"⟩, "widgets"⟩, ⟨42, .obj [("ref", .str "feature")]⟩⟩

/-- The changed file of the scenario of the spec. -/
def aGo : Fields :=
  [("filename", .str "a.go"), ("status", .str "modified"), ("changes", .num 3),
   ("patch", .str "@@ ...")]

/-- A file without a patch, such as a binary file. -/
def logoPng : Fields :=
  [("filename", .str "logo.png"), ("status", .str "added"), ("changes", .num 0)]

/-- A rejection of the comment call: a 404 response whose JSON body carries a
message. -/
def notFound : Fields :=
  [("name", .str "HttpError"), ("message", .str "Not Found"), ("status", .num 404),
   ("response", .obj [("url", .str "https://api.github.com/repos/acme/widgets/issues/42/comments"),
     ("status", .num 404),
     ("data", .obj [("message", .str "Not Found"), ("status", .str "404")])])]

/-- A rejection of the comment call: a 502 response whose body is the empty text. -/
def serverError : Fields :=
  [("name", .str "HttpError"), ("message", .str ""), ("status", .num 502),
   ("response", .obj [("url", .str "https://api.github.com/repos/acme/widgets/issues/42/comments"),
     ("status", .num 502), ("data", .str "")])]

/-- A rejection without a response: the request did not reach the server. -/
def fetchFailed : Fields :=
  [("name", .str "HttpError"), ("message", .str "fetch failed"), ("status", .num 500)]

/-- A rejection of the file listing: an error with a message and no response. -/
def rateLimited : Fields :=
  [("name", .str "HttpError"), ("message", .str "API rate limit exceeded"),
   ("status", .num 403)]

/-- An error that is not an `AggregateError`. -/
def socketHangUp : Fields :=
  [("name", .str "Error"), ("message", .str "socket hang up")]

/-- A `pull_request` delivery whose action is `closed`. -/
def closedDelivery : Delivery :=
  ⟨"pull_request", ⟨some "closed", ⟨⟨"acme"⟩, "widgets"⟩, ⟨42, .obj []⟩⟩⟩

/-- The `Error` instance the dispatcher builds when the signature of a delivery
does not match; it carries the delivery and the status 400. -/
def signatureMismatch : JsVal :=
  .errorObj [("message", .str "[@octokit/webhooks] signature does not match event payload and secret"),
    ("event", .obj [("id", .str "7f4c"), ("name", .str "pull_request"),
      ("signature", .str "sha256=00")]),
    ("status", .num 400)]

/-- A signature verification failure, as passed to the error handler: an
`AggregateError` whose `event` is the `Error` instance of the mismatch. -/
def badSignature : Fields :=
  [("name", .str "AggregateError"),
   ("message", .str "[@octokit/webhooks] signature does not match event payload and secret"),
   ("errors", .arr [signatureMismatch]),
   ("event", signatureMismatch)]

/-- A failure of a registered handler, as passed to the error handler: an
`AggregateError` whose `event` is the delivery, a plain object. -/
def handlerFailure : Fields :=
  [("name", .str "AggregateError"), ("message", .str "socket hang up"),
   ("errors", .arr [.errorObj socketHangUp]),
   ("event", .obj [("id", .str "7f4c"), ("name", .str "pull_request"),
      ("payload", .obj [("action", .str "opened")])])]

/-- Substring containment: the characters of `sub` occur consecutively in `s`. -/
def containsSub (s sub : String) : Prop := sub.data <:+: s.data

/-! ## Auxiliary facts -/

theorem fileLoop_snd (files : List Fields) :
    (fileLoop files).2 = files.map dictionary_file := by
  induction files with
  | nil => rfl
  | cons f rest ih => simp [fileLoop, ih]

theorem elemStrs_dictionaries (files : List Fields) :
    elemStrs (files.map dictionary_file) = List.replicate files.length "[object Object]" := by
  induction files with
  | nil => rfl
  | cons f rest ih =>
    simp only [List.map_cons, List.length_cons, List.replicate_succ]
    rw [← ih]
    rfl

theorem toStr_changes_list (files : List Fields) :
    toStr (changes_list files)
      = joinWith "," (List.replicate files.length "[object Object]") := by
  unfold changes_list
  rw [fileLoop_snd, toStr, elemStrs_dictionaries]

theorem promptText_eq (files : List Fields) :
    promptText files
      = instruction ++ joinWith "," (List.replicate files.length "[object Object]") ++ " " := by
  unfold promptText
  rw [toStr_changes_list]

theorem fileLoop_filter (p : Event → Bool) (hp : ∀ v, p (.log v) = false)
    (files : List Fields) : (fileLoop files).1.filter p = [] := by
  induction files with
  | nil => rfl
  | cons f rest ih => simp [fileLoop, fileLogs, List.filter_append, ih, hp]

theorem fileLoop_filterMap {α : Type} (g : Event → Option α) (hg : ∀ v, g (.log v) = none)
    (files : List Fields) : (fileLoop files).1.filterMap g = [] := by
  induction files with
  | nil => rfl
  | cons f rest ih => simp [fileLoop, fileLogs, List.filterMap_append, ih, hg]

theorem fetchPhase_filter_createComment (payload : Payload) (w : World) :
    (fetchPhase payload w).1.filter Event.isCreateComment = [] := by
  unfold fetchPhase
  cases w.listFiles with
  | ok files =>
    simp [List.filter_append, fileLoop_filter Event.isCreateComment (fun _ => rfl),
      Event.isCreateComment, completionRequest]
  | error e => simp [List.filter_append, Event.isCreateComment]

theorem isNullish_of_truthy (v : JsVal) (h : truthy v = true) : isNullish v = false := by
  cases v <;> simp_all [truthy, isNullish]

theorem convert_ok (v : JsVal) (h : convertible v = true) : convert v = .ok (toStr v) := by
  simp [convert, h]

theorem commentCatch_no_response (error : Fields)
    (h : truthy (lookup "response" error) = false) :
    commentCatch error = .ok (.error (.errorObj error)) := by
  simp [commentCatch, h]

theorem failureLine_ok (response : JsVal) (hr : isNullish response = false)
    (hd : isNullish (propOf response "data") = false)
    (hs : convertible (propOf response "status") = true)
    (hm : convertible (propOf (propOf response "data") "message") = true) :
    failureLine response = .ok ("Error! Status: " ++ toStr (propOf response "status")
      ++ ". Message: " ++ toStr (propOf (propOf response "data") "message")) := by
  simp [failureLine, getProp, hr, hd, convert, hs, hm, bind, Except.bind, pure, Except.pure]

theorem commentCatch_structured (error : Fields)
    (h : truthy (lookup "response" error) = true)
    (hd : isNullish (propOf (lookup "response" error) "data") = false)
    (hs : convertible (propOf (lookup "response" error) "status") = true)
    (hm : convertible (propOf (propOf (lookup "response" error) "data") "message") = true) :
    commentCatch error = .ok (.error (.str ("Error! Status: "
      ++ toStr (propOf (lookup "response" error) "status") ++ ". Message: "
      ++ toStr (propOf (propOf (lookup "response" error) "data") "message")))) := by
  simp [commentCatch, h, failureLine_ok _ (isNullish_of_truthy _ h) hd hs hm]

theorem commentCatch_line (error : Fields) (line : Event)
    (h : commentCatch error = .ok line) : ∃ v, line = Event.error v := by
  cases ht : truthy (lookup "response" error) with
  | false =>
    rw [commentCatch_no_response error ht] at h
    exact ⟨_, (Except.ok.inj h).symm⟩
  | true =>
    cases hf : failureLine (lookup "response" error) with
    | ok text =>
      simp [commentCatch, ht, hf] at h
      exact ⟨_, h.symm⟩
    | error thrown => simp [commentCatch, ht, hf] at h

/-- What `isRequestError` says of an error: it has no response, or a response
with a body, whose status and message convert. -/
theorem isRequestError_cases (error : Fields) (h : isRequestError error = true) :
    truthy (lookup "response" error) = false
      ∨ (truthy (lookup "response" error) = true
        ∧ isNullish (propOf (lookup "response" error) "data") = false
        ∧ convertible (propOf (lookup "response" error) "status") = true
        ∧ convertible (propOf (propOf (lookup "response" error) "data") "message") = true) := by
  unfold isRequestError at h
  cases hr : lookup "response" error with
  | undefined => exact Or.inl rfl
  | obj r =>
    rw [hr] at h
    simp only [Bool.and_eq_true, Bool.not_eq_true'] at h
    exact Or.inr ⟨rfl, h.1.1, h.1.2, h.2⟩
  | null => rw [hr] at h; cases h
  | bool b => rw [hr] at h; cases h
  | num n => rw [hr] at h; cases h
  | str t => rw [hr] at h; cases h
  | errorObj fs => rw [hr] at h; cases h
  | arr xs => rw [hr] at h; cases h

/-- The trace of the handler is the trace of the fetch phase, the comment call,
and what the `catch` block of the comment call logs. -/
theorem handler_trace (payload : Payload) (w : World) :
    ∃ tail : List Event, (∀ e ∈ tail, ∃ v, e = Event.error v) ∧
      (handler payload w).trace = (fetchPhase payload w).1 ++
        [.createComment payload.repository.owner.login payload.repository.name
          payload.pull_request.number result] ++ tail := by
  unfold handler
  cases w.createComment with
  | ok u => exact ⟨[], by simp, by simp⟩
  | error e =>
    simp only
    cases hc : commentCatch e with
    | error thrown => exact ⟨[], by simp, by simp⟩
    | ok line =>
      refine ⟨[line], ?_, by simp⟩
      intro ev hev
      simp at hev
      subst hev
      exact commentCatch_line e ev hc

theorem filter_error_tail (p : Event → Bool) (hp : ∀ v, p (.error v) = false)
    (tail : List Event) (h : ∀ e ∈ tail, ∃ v, e = Event.error v) : tail.filter p = [] := by
  rw [List.filter_eq_nil_iff]
  intro e he
  obtain ⟨v, rfl⟩ := h e he
  simp [hp]

theorem fetchPhase_filterMap_body (payload : Payload) (w : World) :
    (fetchPhase payload w).1.filterMap Event.commentBody = [] := by
  unfold fetchPhase
  cases w.listFiles with
  | ok files =>
    simp [List.filterMap_append, fileLoop_filterMap Event.commentBody (fun _ => rfl),
      Event.commentBody, completionRequest]
  | error e => simp [List.filterMap_append, Event.commentBody]

theorem filterMap_error_tail {α : Type} (g : Event → Option α) (hg : ∀ v, g (.error v) = none)
    (tail : List Event) (h : ∀ e ∈ tail, ∃ v, e = Event.error v) : tail.filterMap g = [] := by
  induction tail with
  | nil => rfl
  | cons e rest ih =>
    obtain ⟨v, rfl⟩ := h e (List.mem_cons_self _ _)
    rw [List.filterMap_cons, hg, ih (fun x hx => h x (List.mem_cons_of_mem _ hx))]

/-! ## The claims -/

/-- C1: for every payload and every outcome of the file-listing call (and of the
other two calls), the trace of the handler holds exactly one `createComment`
call, and it carries `owner = payload.repository.owner.login`,
`repo = payload.repository.name` and `issue_number = payload.pull_request.number`. -/
theorem handler_one_createComment (payload : Payload)
    (listing : Except Fields (List Fields)) (completion : Except Fields JsVal)
    (comment : Except Fields Unit) :
    (handler payload ⟨listing, completion, comment⟩).trace.filter Event.isCreateComment
      = [.createComment payload.repository.owner.login payload.repository.name
          payload.pull_request.number result] := by
  obtain ⟨tail, htail, htrace⟩ := handler_trace payload ⟨listing, completion, comment⟩
  rw [htrace]
  simp [List.filter_append, fetchPhase_filter_createComment,
    filter_error_tail Event.isCreateComment (fun _ => rfl) tail htail, Event.isCreateComment]

/-- C2: for every file-listing outcome and every response or failure of the
completion client, the body passed to `createComment` is the fixed string
"Hi, this is a comment from the bot."; replacing the completion outcome by any
other changes neither the trace nor the outcome of the handler. -/
theorem comment_body_is_placeholder (payload : Payload)
    (listing : Except Fields (List Fields)) (completion other : Except Fields JsVal)
    (comment : Except Fields Unit) :
    (handler payload ⟨listing, completion, comment⟩).trace.filterMap Event.commentBody
        = ["Hi, this is a comment from the bot."]
      ∧ (handler payload ⟨listing, other, comment⟩).trace
        = (handler payload ⟨listing, completion, comment⟩).trace
      ∧ (handler payload ⟨listing, other, comment⟩).outcome
        = (handler payload ⟨listing, completion, comment⟩).outcome := by
  refine ⟨?_, ?_, ?_⟩
  · obtain ⟨tail, htail, htrace⟩ := handler_trace payload ⟨listing, completion, comment⟩
    rw [htrace]
    simp [List.filterMap_append, fetchPhase_filterMap_body,
      filterMap_error_tail Event.commentBody (fun _ => rfl) tail htail, Event.commentBody, result]
  · cases comment with
    | ok u => cases listing <;> rfl
    | error e =>
      cases hc : commentCatch e with
      | ok line => cases listing <;> simp only [handler, hc, fetchPhase]
      | error thrown => cases listing <;> simp only [handler, hc, fetchPhase]
  · cases comment with
    | ok u => cases listing <;> rfl
    | error e =>
      cases hc : commentCatch e with
      | ok line => cases listing <;> simp only [handler, hc, fetchPhase]
      | error thrown => cases listing <;> simp only [handler, hc, fetchPhase]

theorem fetchPhase_ok_outbound (payload : Payload) (files : List Fields)
    (completion : Except Fields JsVal) (comment : Except Fields Unit) :
    (fetchPhase payload ⟨.ok files, completion, comment⟩).1.filter Event.isOutbound
      = [.listFiles payload.repository.owner.login payload.repository.name
          payload.pull_request.number, completionRequest files] := by
  simp [fetchPhase, List.filter_append, fileLoop_filter Event.isOutbound (fun _ => rfl),
    Event.isOutbound, Event.isListFiles, Event.isCompletion, Event.isCreateComment,
    completionRequest]

theorem fetchPhase_ok_prompts (payload : Payload) (files : List Fields)
    (completion : Except Fields JsVal) (comment : Except Fields Unit) :
    (fetchPhase payload ⟨.ok files, completion, comment⟩).1.filter Event.isCompletion
      = [completionRequest files] := by
  simp [fetchPhase, List.filter_append, fileLoop_filter Event.isCompletion (fun _ => rfl),
    Event.isCompletion, completionRequest]

/-- C8: when the file-listing call succeeds, for every returned file list, the
outbound calls of the handler are, in order, one `listFiles` call, one
completion request and one `createComment` call, and no other. -/
theorem outbound_calls_on_success (payload : Payload) (files : List Fields)
    (completion : Except Fields JsVal) (comment : Except Fields Unit) :
    (handler payload ⟨.ok files, completion, comment⟩).trace.filter Event.isOutbound
      = [ .listFiles payload.repository.owner.login payload.repository.name
            payload.pull_request.number,
          .completion "gpt-4o-mini" true [⟨"user", promptText files⟩],
          .createComment payload.repository.owner.login payload.repository.name
            payload.pull_request.number result ] := by
  obtain ⟨tail, htail, htrace⟩ := handler_trace payload ⟨.ok files, completion, comment⟩
  rw [htrace]
  simp [List.filter_append, fetchPhase_ok_outbound,
    filter_error_tail Event.isOutbound (fun _ => rfl) tail htail, Event.isOutbound,
    Event.isListFiles, Event.isCompletion, Event.isCreateComment, completionRequest]

theorem intercalate_go_append (sep : String) :
    ∀ (l : List String) (acc x : String),
      String.intercalate.go (acc ++ x) sep l = acc ++ String.intercalate.go x sep l
  | [], acc, x => rfl
  | y :: rest, acc, x => by
    simp only [String.intercalate.go]
    rw [String.append_assoc, String.append_assoc, intercalate_go_append sep rest acc,
      String.append_assoc]

/-- The join of the model is the library join. -/
theorem joinWith_eq_intercalate (sep : String) :
    ∀ l : List String, joinWith sep l = String.intercalate sep l
  | [] => rfl
  | [x] => rfl
  | x :: y :: rest => by
    rw [joinWith, joinWith_eq_intercalate sep (y :: rest)]
    simp only [String.intercalate, String.intercalate.go]
    rw [intercalate_go_append]

/-- C10: the prompt depends only on the number of changed files.  For every file
list of length N the only completion request carries the instruction text
followed by N copies of "[object Object]" joined by commas and one trailing
blank, so two file lists of the same length give the identical request. -/
theorem prompt_depends_on_length_only (payload : Payload) (files files' : List Fields)
    (completion : Except Fields JsVal) (comment : Except Fields Unit)
    (h : files.length = files'.length) :
    (handler payload ⟨.ok files, completion, comment⟩).trace.filter Event.isCompletion
        = [.completion "gpt-4o-mini" true [⟨"user", instruction
            ++ String.intercalate "," (List.replicate files.length "[object Object]")
            ++ " "⟩]]
      ∧ (handler payload ⟨.ok files', completion, comment⟩).trace.filter Event.isCompletion
        = (handler payload ⟨.ok files, completion, comment⟩).trace.filter Event.isCompletion := by
  have key : ∀ fs : List Fields,
      (handler payload ⟨.ok fs, completion, comment⟩).trace.filter Event.isCompletion
        = [.completion "gpt-4o-mini" true [⟨"user", instruction
            ++ String.intercalate "," (List.replicate fs.length "[object Object]")
            ++ " "⟩]] := by
    intro fs
    obtain ⟨tail, htail, htrace⟩ := handler_trace payload ⟨.ok fs, completion, comment⟩
    rw [htrace]
    simp [List.filter_append, fetchPhase_ok_prompts,
      filter_error_tail Event.isCompletion (fun _ => rfl) tail htail, Event.isCompletion,
      completionRequest, promptText_eq, joinWith_eq_intercalate]
  exact ⟨key files, by rw [key files, key files', h]⟩

/-- Witness of C10: two lists of two files, in opposite orders, give the same
request, whose text is the instruction text of line 72 followed by
"[object Object],[object Object] ". -/
theorem prompt_depends_on_length_only_witness :
    [aGo, logoPng].length = [logoPng, aGo].length
      ∧ (handler acmePayload ⟨.ok [aGo, logoPng], .ok .undefined, .ok ()⟩).trace.filter
          Event.isCompletion
        = [.completion "gpt-4o-mini" true
            [⟨"user", "You are a senior software developer. Analyze these PR changes that have been made into the repository. Provide your response in 3 sections. First, provide a summary about what all of the changes will achieve for the project. This should be a concise statement that should be direct and explain all the integrations/logic that is executed. In the next section, you need to discuss changes of concern. Start  by mentioning the file name and below that add the line of concern. After the line of code, explain on the next line on why this logic might be flawed. Be quantitative and specific. Here are all the changes that have been made for the PR: [object Object],[object Object] "⟩]]
      ∧ (handler acmePayload ⟨.ok [logoPng, aGo], .ok .undefined, .ok ()⟩).trace.filter
          Event.isCompletion
        = (handler acmePayload ⟨.ok [aGo, logoPng], .ok .undefined, .ok ()⟩).trace.filter
          Event.isCompletion := by
  have h := prompt_depends_on_length_only acmePayload [aGo, logoPng] [logoPng, aGo]
    (.ok .undefined) (.ok ()) rfl
  refine ⟨rfl, ?_, h.2⟩
  rw [h.1]
  have e : ∀ a b : String, a = b →
      [Event.completion "gpt-4o-mini" true [⟨"user", a⟩]]
        = [Event.completion "gpt-4o-mini" true [⟨"user", b⟩]] := fun a b hab => by rw [hab]
  refine e _ _ ?_
  set_option maxRecDepth 100000 in decide

theorem joinWith_not_mem (c : Char) (sep : String) (hsep : c ∉ sep.data) :
    ∀ l : List String, (∀ x ∈ l, c ∉ x.data) → c ∉ (joinWith sep l).data
  | [], _ => by simp [joinWith]
  | [x], h => by simpa [joinWith] using h x (List.mem_singleton_self x)
  | x :: y :: rest, h => by
    have ih := joinWith_not_mem c sep hsep (y :: rest)
      (fun z hz => h z (List.mem_cons_of_mem _ hz))
    have hx := h x (List.mem_cons_self _ _)
    simp only [joinWith, String.data_append, List.mem_append, not_or]
    exact ⟨⟨hx, hsep⟩, ih⟩

set_option maxRecDepth 100000 in
theorem instruction_no_paren : '(' ∉ instruction.data := by
  decide

theorem promptText_no_paren (files : List Fields) : '(' ∉ (promptText files).data := by
  rw [promptText_eq]
  simp only [String.data_append, List.mem_append, not_or]
  refine ⟨⟨instruction_no_paren, ?_⟩, by decide⟩
  apply joinWith_not_mem _ _ (by decide)
  intro x hx
  rw [List.eq_of_mem_replicate hx]
  decide

theorem fileInfo_has_paren (file : Fields) : '(' ∈ (fileInfo file).data := by
  simp [fileInfo, String.data_append]

/-- No record `filename (status)` occurs in the prompt, whatever the files are. -/
theorem promptText_lacks_fileInfo (files : List Fields) (file : Fields) :
    ¬ containsSub (promptText files) (fileInfo file) := by
  intro h
  exact promptText_no_paren files (h.subset (fileInfo_has_paren file))

theorem fileLoop_flatMap_prompts (files : List Fields) :
    (fileLoop files).1.flatMap Event.promptTexts = [] := by
  induction files with
  | nil => rfl
  | cons f rest ih => simp [fileLoop, fileLogs, List.flatMap_append, ih, Event.promptTexts]

theorem handler_prompts (payload : Payload) (files : List Fields)
    (completion : Except Fields JsVal) (comment : Except Fields Unit) :
    (handler payload ⟨.ok files, completion, comment⟩).trace.flatMap Event.promptTexts
      = [promptText files] := by
  obtain ⟨tail, htail, htrace⟩ := handler_trace payload ⟨.ok files, completion, comment⟩
  have ht : tail.flatMap Event.promptTexts = [] := by
    rw [List.flatMap_eq_nil_iff]
    intro e he
    obtain ⟨v, rfl⟩ := htail e he
    rfl
  rw [htrace]
  simp [fetchPhase, List.flatMap_append, fileLoop_flatMap_prompts, ht, Event.promptTexts,
    completionRequest]

theorem promptText_aGo : promptText [aGo] = instruction ++ "[object Object] " := by
  rw [promptText_eq, String.append_assoc]
  rfl

/-- C3: on the file list of the scenario,
`[{filename:"a.go", status:"modified", changes:3, patch:"@@ ..."}]`, the record
of the file reads "a.go (modified)", but the prompt sent to the completion
client is the instruction text followed by "[object Object] " and does not
contain "a.go (modified)". -/
theorem scenario_prompt_lacks_record :
    fileInfo aGo = "a.go (modified)"
      ∧ (handler acmePayload ⟨.ok [aGo], .ok .undefined, .ok ()⟩).trace.flatMap
          Event.promptTexts = [instruction ++ "[object Object] "]
      ∧ ¬ containsSub (instruction ++ "[object Object] ") "a.go (modified)" := by
  have e2 : fileInfo aGo = "a.go (modified)" := by decide
  refine ⟨e2, ?_, ?_⟩
  · rw [handler_prompts, promptText_aGo]
  · have h := promptText_lacks_fileInfo [aGo] aGo
    rwa [promptText_aGo, e2] at h

theorem fetchPhase_error (payload : Payload) (error : Fields)
    (completion : Except Fields JsVal) (comment : Except Fields Unit) :
    fetchPhase payload ⟨.error error, completion, comment⟩
      = ([ .log (.str ("Received a pull request event for #"
              ++ toStr payload.pull_request.head)),
           .listFiles payload.repository.owner.login payload.repository.name
             payload.pull_request.number,
           .error (.str ("Error fetching file changes: " ++ toStr (lookup "message" error))) ],
         none) := by
  rfl

/-- C7: if the file-listing call fails with an error whose message is `m`, the
handler writes the error line "Error fetching file changes: m" right after the
`listFiles` call, its next step is the `createComment` call, it sends no
completion request, its only outbound calls are `listFiles` and `createComment`,
and it resolves when the comment call does. -/
theorem listing_failure_continues (payload : Payload) (error : Fields) (m : String)
    (completion : Except Fields JsVal) (comment : Except Fields Unit)
    (h : lookup "message" error = .str m) :
    (handler payload ⟨.error error, completion, comment⟩).trace.take 4
        = [ .log (.str ("Received a pull request event for #"
              ++ toStr payload.pull_request.head)),
            .listFiles payload.repository.owner.login payload.repository.name
              payload.pull_request.number,
            .error (.str ("Error fetching file changes: " ++ m)),
            .createComment payload.repository.owner.login payload.repository.name
              payload.pull_request.number result ]
      ∧ (handler payload ⟨.error error, completion, comment⟩).trace.filter
          Event.isCompletion = []
      ∧ (handler payload ⟨.error error, completion, comment⟩).trace.filter
          Event.isOutbound
        = [ .listFiles payload.repository.owner.login payload.repository.name
              payload.pull_request.number,
            .createComment payload.repository.owner.login payload.repository.name
              payload.pull_request.number result ]
      ∧ (handler payload ⟨.error error, completion, .ok ()⟩).outcome = .ok () := by
  obtain ⟨tail, htail, htrace⟩ := handler_trace payload ⟨.error error, completion, comment⟩
  rw [htrace, fetchPhase_error, h]
  refine ⟨by simp [toStr], ?_, ?_, by rfl⟩
  · simp [List.filter_append, filter_error_tail Event.isCompletion (fun _ => rfl) tail htail,
      Event.isCompletion]
  · simp [List.filter_append, filter_error_tail Event.isOutbound (fun _ => rfl) tail htail,
      Event.isOutbound, Event.isListFiles, Event.isCompletion, Event.isCreateComment]

/-- Witness of C7: the listing is rejected with "API rate limit exceeded". -/
theorem listing_failure_continues_witness :
    lookup "message" rateLimited = .str "API rate limit exceeded"
      ∧ (handler acmePayload ⟨.error rateLimited, .ok .undefined, .ok ()⟩).trace.take 4
        = [ .log (.str ("Received a pull request event for #"
              ++ toStr acmePayload.pull_request.head)),
            .listFiles "acme" "widgets" 42,
            .error (.str ("Error fetching file changes: " ++ "API rate limit exceeded")),
            .createComment "acme" "widgets" 42 result ] :=
  ⟨rfl, (listing_failure_continues acmePayload rateLimited "API rate limit exceeded"
    (.ok .undefined) (.ok ()) rfl).1⟩

theorem handler_comment_ok (payload : Payload) (listing : Except Fields (List Fields))
    (completion : Except Fields JsVal) :
    (handler payload ⟨listing, completion, .ok ()⟩).trace
      = (fetchPhase payload ⟨listing, completion, .ok ()⟩).1 ++
        [.createComment payload.repository.owner.login payload.repository.name
          payload.pull_request.number result] := by
  rfl

theorem fetchPhase_comment_irrelevant (payload : Payload)
    (listing : Except Fields (List Fields)) (completion : Except Fields JsVal)
    (comment comment' : Except Fields Unit) :
    fetchPhase payload ⟨listing, completion, comment⟩
      = fetchPhase payload ⟨listing, completion, comment'⟩ := by
  cases listing <;> rfl

/-- When the `catch` block writes a line, the run is the successful run followed
by that line, and the handler resolves. -/
theorem handler_comment_caught (payload : Payload) (listing : Except Fields (List Fields))
    (completion : Except Fields JsVal) (error : Fields) (line : Event)
    (h : commentCatch error = .ok line) :
    (handler payload ⟨listing, completion, .error error⟩).outcome = .ok ()
      ∧ (handler payload ⟨listing, completion, .error error⟩).trace
        = (handler payload ⟨listing, completion, .ok ()⟩).trace ++ [line] := by
  rw [handler_comment_ok, fetchPhase_comment_irrelevant payload listing completion (.ok ())
    (.error error)]
  simp only [handler, h]
  exact ⟨trivial, trivial⟩

/-- C4: for every error value with which the REST client rejects the
`createComment` call, with or without a response and whatever the status and
the body of the response are, the handler writes exactly one more line, with
`console.error`, than the run in which the call succeeds, and resolves: it does
not raise or reject to the dispatcher. -/
theorem comment_failure_logged (payload : Payload) (listing : Except Fields (List Fields))
    (completion : Except Fields JsVal) (error : Fields)
    (h : isRequestError error = true) :
    (handler payload ⟨listing, completion, .error error⟩).outcome = .ok ()
      ∧ ∃ v, (handler payload ⟨listing, completion, .error error⟩).trace
        = (handler payload ⟨listing, completion, .ok ()⟩).trace ++ [Event.error v] := by
  rcases isRequestError_cases error h with ht | ⟨ht, hd, hs, hm⟩
  · obtain ⟨h1, h2⟩ := handler_comment_caught payload listing completion error _
      (commentCatch_no_response error ht)
    exact ⟨h1, _, h2⟩
  · obtain ⟨h1, h2⟩ := handler_comment_caught payload listing completion error _
      (commentCatch_structured error ht hd hs hm)
    exact ⟨h1, _, h2⟩

/-- Witness of C4: the comment call is rejected with a 502 response whose body
is the empty text. -/
theorem comment_failure_logged_witness :
    isRequestError serverError = true
      ∧ (handler acmePayload ⟨.ok [aGo], .ok .undefined, .error serverError⟩).outcome = .ok ()
      ∧ ∃ v, (handler acmePayload ⟨.ok [aGo], .ok .undefined, .error serverError⟩).trace
        = (handler acmePayload ⟨.ok [aGo], .ok .undefined, .ok ()⟩).trace ++ [Event.error v] :=
  ⟨rfl, comment_failure_logged acmePayload (.ok [aGo]) (.ok .undefined) serverError rfl⟩

/-- C9: when the REST client rejects the `createComment` call, if the error has
a response, the only line written after the call is
"Error! Status: <response.status>. Message: <response.data.message>"; if it has
no response, the only line written after the call is the raw error value; both
lines go to `console.error`, and in either case the trace holds a single
`createComment` call. -/
theorem comment_failure_lines (payload : Payload) (listing : Except Fields (List Fields))
    (completion : Except Fields JsVal) (error : Fields)
    (h : isRequestError error = true) :
    (truthy (lookup "response" error) = true →
        (handler payload ⟨listing, completion, .error error⟩).trace
          = (handler payload ⟨listing, completion, .ok ()⟩).trace ++
            [.error (.str ("Error! Status: "
              ++ toStr (propOf (lookup "response" error) "status") ++ ". Message: "
              ++ toStr (propOf (propOf (lookup "response" error) "data") "message")))])
      ∧ (truthy (lookup "response" error) = false →
        (handler payload ⟨listing, completion, .error error⟩).trace
          = (handler payload ⟨listing, completion, .ok ()⟩).trace ++
            [.error (.errorObj error)])
      ∧ ((handler payload ⟨listing, completion, .error error⟩).trace.filter
          Event.isCreateComment).length = 1 := by
  refine ⟨fun ht => ?_, fun ht => ?_, ?_⟩
  · rcases isRequestError_cases error h with hf | ⟨_, hd, hs, hm⟩
    · rw [ht] at hf
      cases hf
    · exact (handler_comment_caught payload listing completion error _
        (commentCatch_structured error ht hd hs hm)).2
  · exact (handler_comment_caught payload listing completion error _
      (commentCatch_no_response error ht)).2
  · obtain ⟨tail, htail, htrace⟩ := handler_trace payload ⟨listing, completion, .error error⟩
    rw [htrace]
    simp [List.filter_append, fetchPhase_filter_createComment,
      filter_error_tail Event.isCreateComment (fun _ => rfl) tail htail, Event.isCreateComment]

/-- Witness of C9: a 404 response with a message, a 502 response whose body is
the empty text, and an error without a response. -/
theorem comment_failure_lines_witness :
    (handler acmePayload ⟨.ok [aGo], .ok .undefined, .error notFound⟩).trace
        = (handler acmePayload ⟨.ok [aGo], .ok .undefined, .ok ()⟩).trace ++
          [.error (.str "Error! Status: 404. Message: Not Found")]
      ∧ (handler acmePayload ⟨.ok [aGo], .ok .undefined, .error serverError⟩).trace
        = (handler acmePayload ⟨.ok [aGo], .ok .undefined, .ok ()⟩).trace ++
          [.error (.str "Error! Status: 502. Message: undefined")]
      ∧ (handler acmePayload ⟨.ok [aGo], .ok .undefined, .error fetchFailed⟩).trace
        = (handler acmePayload ⟨.ok [aGo], .ok .undefined, .ok ()⟩).trace ++
          [.error (.errorObj fetchFailed)] :=
  ⟨(comment_failure_lines acmePayload (.ok [aGo]) (.ok .undefined) notFound rfl).1 rfl,
   (comment_failure_lines acmePayload (.ok [aGo]) (.ok .undefined) serverError rfl).1 rfl,
   (comment_failure_lines acmePayload (.ok [aGo]) (.ok .undefined) fetchFailed rfl).2.1 rfl⟩

/-- A rejected completion request is caught nowhere: it rejects the promise
derived by `completion.then(...)`, which nothing awaits, and leaves the outcome
of the handler to the comment call. -/
theorem completion_failure_detached (payload : Payload) (files : List Fields)
    (error : Fields) :
    (handler payload ⟨.ok files, .error error, .ok ()⟩).detached
        = some (.error (.errorObj error))
      ∧ (handler payload ⟨.ok files, .error error, .ok ()⟩).outcome = .ok () :=
  ⟨rfl, rfl⟩

theorem strictEqStr_iff (v : JsVal) (s : String) : strictEqStr v s = true ↔ v = .str s := by
  cases v <;> simp [strictEqStr]

/-- C5: a delivery whose event/action key is not exactly "pull_request.opened"
runs no handler, so its runs hold no event at all, in particular no `listFiles`,
completion or `createComment` call; "pull_request.opened" is the only key under
which a handler is registered. -/
theorem dispatch_other_key (d : Delivery) (w : World)
    (h : eventKey d ≠ "pull_request.opened") :
    dispatch d w = []
      ∧ (dispatch d w).flatMap Run.trace = []
      ∧ registrations.map Prod.fst = ["pull_request.opened"] := by
  have hd : dispatch d w = [] := by
    have hb : ("pull_request.opened" == eventKey d) = false := by
      simpa using Ne.symm h
    simp [dispatch, registrations, List.filter, hb]
  exact ⟨hd, by rw [hd]; rfl, rfl⟩

/-- Witness of C5: a `pull_request` delivery with action `closed`. -/
theorem dispatch_other_key_witness :
    eventKey closedDelivery ≠ "pull_request.opened"
      ∧ dispatch closedDelivery ⟨.ok [aGo], .ok .undefined, .ok ()⟩ = []
      ∧ (dispatch closedDelivery ⟨.ok [aGo], .ok .undefined, .ok ()⟩).flatMap Run.trace = []
      ∧ registrations.map Prod.fst = ["pull_request.opened"] :=
  ⟨by decide, dispatch_other_key closedDelivery ⟨.ok [aGo], .ok .undefined, .ok ()⟩ (by decide)⟩

/-- A delivery with the key "pull_request.opened" runs the handler once. -/
theorem dispatch_opened (d : Delivery) (w : World)
    (h : eventKey d = "pull_request.opened") :
    dispatch d w = [handler d.payload w] := by
  simp [dispatch, registrations, List.filter, h]

/-- The failure of the conversion in the error handler: an `AggregateError`
whose `event` does not convert makes the handler raise before it logs. -/
theorem onError_event_not_convertible (error : Fields)
    (hn : lookup "name" error = .str "AggregateError")
    (hc : convertible (lookup "event" error) = false) :
    (onError error).outcome = .error conversionError ∧ (onError error).trace = [] := by
  have hs := (strictEqStr_iff _ _).2 hn
  simp [onError, hs, convert, hc]

/-- C6: for every error the dispatcher passes, with an `event` that converts to
a string as the `Error` instance of a verification failure and the plain
object of a delivery do, the error handler never raises and writes exactly one
line with `console.log`: when the name of the error is `AggregateError`, the
text "Error processing request: " followed by the string conversion of the
`event` of the error, and for any other error the error value itself. -/
theorem onError_logs_once (error : Fields)
    (h : lookup "name" error = .str "AggregateError" →
      convertible (lookup "event" error) = true) :
    (onError error).outcome = .ok ()
      ∧ (onError error).trace.length = 1
      ∧ (lookup "name" error = .str "AggregateError" →
        (onError error).trace
          = [.log (.str ("Error processing request: " ++ toStr (lookup "event" error)))])
      ∧ (lookup "name" error ≠ .str "AggregateError" →
        (onError error).trace = [.log (.errorObj error)]) := by
  cases hs : strictEqStr (lookup "name" error) "AggregateError" with
  | true =>
    have hn := (strictEqStr_iff _ _).1 hs
    have hc := convert_ok _ (h hn)
    simp [onError, hs, hc]
    exact hn
  | false =>
    have hn : lookup "name" error ≠ .str "AggregateError" := fun e => by
      rw [(strictEqStr_iff _ _).2 e] at hs
      cases hs
    simp [onError, hs, hn]

/-- Witness of C6: a signature verification failure, a handler failure and an
error of another name. -/
theorem onError_logs_once_witness :
    (onError badSignature).trace
        = [.log (.str ("Error processing request: Error: "
            ++ "[@octokit/webhooks] signature does not match event payload and secret"))]
      ∧ (onError badSignature).outcome = .ok ()
      ∧ (onError handlerFailure).trace
        = [.log (.str "Error processing request: [object Object]")]
      ∧ (onError socketHangUp).trace = [.log (.errorObj socketHangUp)] :=
  ⟨(onError_logs_once badSignature (fun _ => rfl)).2.2.1 rfl,
   (onError_logs_once badSignature (fun _ => rfl)).1,
   (onError_logs_once handlerFailure (fun _ => rfl)).2.2.1 rfl,
   (onError_logs_once socketHangUp (fun _ => rfl)).2.2.2 (by simp [socketHangUp, lookup])⟩

end CodeCleaner
